import Mathlib

/-!
Verification of the trading-dashboard arithmetic in `src/app.py`.

Python numbers (ints and floats) are embedded as exact rationals `ℚ`;
Streamlit slider/number-input widgets are embedded as clamping functions on
their bounds; the Python list comprehensions over `range(1, 13)` are embedded
as `List.map` over the month list; Python's `ZeroDivisionError` on the
position-size division is embedded as an `Option` result.
-/

namespace App

/-- Streamlit slider widgets keep their value inside `[lo, hi]`: the value a
slider yields is its requested value clamped to the bounds. -/
def slider_clamp (lo hi v : ℤ) : ℤ := max lo (min hi v)

/-- Embeds `best_case = st.sidebar.slider("Best Case Return (%)", 0, 100, 66)`
(app.py line 46): a value clamped to `[0, 100]`. -/
def best_case (b : ℤ) : ℤ := slider_clamp 0 100 b

/-- Embeds `normal_case = st.sidebar.slider("Normal Case Return (%)", 0, best_case, 32)`
(app.py line 47): the slider maximum is the current best case. -/
def normal_case (b n : ℤ) : ℤ := slider_clamp 0 (best_case b) n

/-- Embeds `worst_case = st.sidebar.slider("Worst Case Return (%)", 0, normal_case, 21)`
(app.py line 48): the slider maximum is the current normal case. -/
def worst_case (b n w : ℤ) : ℤ := slider_clamp 0 (normal_case b n) w

/-- Embeds `risk_amount = initial_portfolio * (risk_percentage / 100)` (app.py line 51). -/
def risk_amount (initial_portfolio risk_percentage : ℚ) : ℚ :=
  initial_portfolio * (risk_percentage / 100)

/-- Embeds `max_loss = initial_portfolio * (max_dd / 100)` (app.py line 52). -/
def max_loss (initial_portfolio max_dd : ℚ) : ℚ :=
  initial_portfolio * (max_dd / 100)

/-- Embeds `remaining_portfolio = initial_portfolio - max_loss` (app.py line 53). -/
def remaining_portfolio (initial_portfolio max_dd : ℚ) : ℚ :=
  initial_portfolio - max_loss initial_portfolio max_dd

/-- Embeds `max_trades = initial_portfolio / risk_amount` (app.py line 54). -/
def max_trades (initial_portfolio risk_percentage : ℚ) : ℚ :=
  initial_portfolio / risk_amount initial_portfolio risk_percentage

/-- Python's `int()` on a real number truncates toward zero. -/
def py_int (q : ℚ) : ℤ := if 0 ≤ q then ⌊q⌋ else ⌈q⌉

/-- Embeds the value rendered by `st.metric(..., value=f"{int(max_trades)}")`
(app.py line 160): the quotient truncated to an integer. -/
def max_trades_display (initial_portfolio risk_percentage : ℚ) : ℤ :=
  py_int (max_trades initial_portfolio risk_percentage)

/-- Embeds the value rendered as Average Trade Size,
`f"${initial_portfolio/max_trades:,.2f}"` (app.py line 168): the division uses
the unfloored `max_trades`. -/
def average_trade_size (initial_portfolio risk_percentage : ℚ) : ℚ :=
  initial_portfolio / max_trades initial_portfolio risk_percentage

/-- Embeds `months = range(1, 13)` (app.py line 132). -/
def months : List ℕ := (List.range 12).map (fun i => i + 1)

/-- Embeds the projection comprehension
`[initial_portfolio * (1 + pct/100)**m for m in months]` (app.py lines 133-135),
shared by `best_case_proj`, `normal_case_proj` and `worst_case_proj`, which
instantiate it at the three scenario percentages. -/
def scenario_proj (initial_portfolio pct : ℚ) : List ℚ :=
  months.map (fun m => initial_portfolio * (1 + pct / 100) ^ (m : ℕ))

/-- Embeds `best_case_proj` (app.py line 133). -/
def best_case_proj (initial_portfolio pct : ℚ) : List ℚ :=
  scenario_proj initial_portfolio pct

/-- Modelled from the spec: the linear projection (variant A) belongs to the
second near-duplicate dashboard of this repository, whose source file is not
under src/; the spec gives its formula as
`value(m) = portfolio + portfolio × (scenarioPct/100) × m` for month m in 1..12. -/
def linear_proj (initial_portfolio pct : ℚ) : List ℚ :=
  months.map (fun (m : ℕ) => initial_portfolio + initial_portfolio * (pct / 100) * (m : ℚ))

/-- Embeds `position_size = abs(risk_per_trade / (entry_price - stop_loss))`
(app.py line 186); when `entry_price == stop_loss` the Python division raises
`ZeroDivisionError`, embedded as `none`. -/
def position_size (risk_per_trade entry_price stop_loss : ℚ) : Option ℚ :=
  if entry_price - stop_loss = 0 then none
  else some |risk_per_trade / (entry_price - stop_loss)|

/-- Embeds `total_position_value = position_size * entry_price` (app.py line 187),
propagating the division failure. -/
def total_position_value (risk_per_trade entry_price stop_loss : ℚ) : Option ℚ :=
  (position_size risk_per_trade entry_price stop_loss).map (fun s => s * entry_price)

/-- Bounds of the `initial_portfolio` number input (app.py lines 17-24):
`min_value=1000, max_value=1000000`. -/
def initial_portfolio_valid (p : ℚ) : Prop := 1000 ≤ p ∧ p ≤ 1000000

/-- Bounds of the `risk_percentage` slider (app.py lines 27-33):
`min_value=0.5, max_value=5.0`. -/
def risk_percentage_valid (r : ℚ) : Prop := 1 / 2 ≤ r ∧ r ≤ 5

end App

namespace App

/-- Helper: the compound projection entry at index k (month k + 1). -/
theorem scenario_proj_getElem (p pct : ℚ) (k : ℕ) (hk : k < 12) :
    (scenario_proj p pct)[k]? = some (p * (1 + pct / 100) ^ (k + 1)) := by
  rw [scenario_proj, months, List.map_map, List.getElem?_map, List.getElem?_range hk]
  rfl

/-- Helper: the linear projection entry at index k (month k + 1). -/
theorem linear_proj_getElem (p pct : ℚ) (k : ℕ) (hk : k < 12) :
    (linear_proj p pct)[k]? = some (p + p * (pct / 100) * ((k + 1 : ℕ) : ℚ)) := by
  rw [linear_proj, months, List.map_map, List.getElem?_map, List.getElem?_range hk]
  rfl

/-- Helper: strict Bernoulli inequality over ℚ, 1 + m·x < (1 + x)^m for
x > 0 and m ≥ 2. -/
theorem one_add_mul_lt_pow_of_pos {x : ℚ} (hx : 0 < x) :
    ∀ {m : ℕ}, 2 ≤ m → 1 + (m : ℚ) * x < (1 + x) ^ m := by
  intro m
  induction m with
  | zero => omega
  | succ n ih =>
    intro hm
    rcases Nat.lt_or_ge n 2 with h2 | h2
    · have hn : n = 1 := by omega
      subst hn
      push_cast
      nlinarith [mul_pos hx hx]
    · have ihh := ih h2
      have h1x : (0 : ℚ) < 1 + x := by linarith
      have hn0 : (0 : ℚ) ≤ (n : ℚ) := Nat.cast_nonneg n
      calc 1 + ((n + 1 : ℕ) : ℚ) * x
          ≤ (1 + (n : ℚ) * x) * (1 + x) := by push_cast; nlinarith [sq_nonneg x]
        _ < (1 + x) ^ n * (1 + x) := mul_lt_mul_of_pos_right ihh h1x
        _ = (1 + x) ^ (n + 1) := by ring

/-- Claim C1: after clamping each scenario slider to its bounds (normal-case
maximum bounded by best-case, worst-case maximum bounded by normal-case), the
ordering 0 ≤ worstCase ≤ normalCase ≤ bestCase ≤ 100 holds for the three
scenario return values, whatever values were requested. -/
theorem scenario_sliders_ordered (b n w : ℤ) :
    0 ≤ worst_case b n w ∧ worst_case b n w ≤ normal_case b n ∧
      normal_case b n ≤ best_case b ∧ best_case b ≤ 100 := by
  unfold worst_case normal_case best_case slider_clamp
  omega

/-- Claim C6: the risk amount per trade equals portfolio × (riskPct / 100); in
particular portfolio = 75000 and riskPct = 2.0 yield riskAmount = 1500.00. -/
theorem risk_amount_formula (p r : ℚ) :
    risk_amount p r = p * (r / 100) ∧ risk_amount 75000 2 = 1500 := by
  refine ⟨rfl, ?_⟩
  norm_num [risk_amount]

/-- Claim C7: maxLoss equals portfolio × (maxDrawdownPct / 100) and
remainingPortfolio equals portfolio − maxLoss, so remainingPortfolio + maxLoss
recovers the portfolio exactly; portfolio = 75000 and maxDrawdownPct = 32.6
yield maxLoss = 24450.00 and remainingPortfolio = 50550.00. -/
theorem remaining_plus_max_loss (p dd : ℚ) :
    max_loss p dd = p * (dd / 100) ∧
      remaining_portfolio p dd = p - max_loss p dd ∧
      remaining_portfolio p dd + max_loss p dd = p ∧
      max_loss 75000 (326 / 10) = 24450 ∧
      remaining_portfolio 75000 (326 / 10) = 50550 := by
  refine ⟨rfl, rfl, ?_, ?_, ?_⟩ <;> norm_num [remaining_portfolio, max_loss]

/-- Claim C2: the compound portfolio projection (variant B) at month m, for m
in 1..12, equals portfolio × (1 + pct/100)^m; the list entry for month m sits
at index m − 1. -/
theorem compound_proj_value (p pct : ℚ) (m : ℕ) (h1 : 1 ≤ m) (h12 : m ≤ 12) :
    (scenario_proj p pct)[m - 1]? = some (p * (1 + pct / 100) ^ m) := by
  obtain ⟨k, rfl⟩ : ∃ k, m = k + 1 := ⟨m - 1, by omega⟩
  rw [Nat.add_sub_cancel, scenario_proj_getElem p pct k (by omega)]

/-- Witness for C2 at portfolio 75000, pct 66, month 1. -/
theorem compound_proj_value_witness :
    (scenario_proj 75000 66)[0]? = some (75000 * (1 + 66 / 100) ^ 1) :=
  compound_proj_value 75000 66 1 (by norm_num) (by norm_num)

/-- Claim C3: the linear portfolio projection (variant A) at month m, for m in
1..12, equals portfolio + portfolio × (pct/100) × m; the list entry for month m
sits at index m − 1. -/
theorem linear_proj_value (p pct : ℚ) (m : ℕ) (h1 : 1 ≤ m) (h12 : m ≤ 12) :
    (linear_proj p pct)[m - 1]? = some (p + p * (pct / 100) * m) := by
  obtain ⟨k, rfl⟩ : ∃ k, m = k + 1 := ⟨m - 1, by omega⟩
  rw [Nat.add_sub_cancel, linear_proj_getElem p pct k (by omega)]

/-- Witness for C3 at portfolio 75000, pct 66, month 1. -/
theorem linear_proj_value_witness :
    (linear_proj 75000 66)[0]? = some (75000 + 75000 * (66 / 100) * 1) :=
  linear_proj_value 75000 66 1 (by norm_num) (by norm_num)

/-- Counterexample to claim C4 as stated: at portfolio 0, pct 66 > 0, month 2
(index 1), the linear and compound projections agree (both are 0), so the two
formulas do not differ there even though m ≥ 2 and pct > 0. -/
theorem linear_compound_agree_at_zero_portfolio :
    (linear_proj 0 66)[1]? = (scenario_proj 0 66)[1]? ∧ (0 : ℚ) < 66 := by
  constructor
  · rw [linear_proj_getElem 0 66 1 (by omega), scenario_proj_getElem 0 66 1 (by omega)]
    norm_num
  · norm_num

/-- Claim C4 (amended): for every portfolio and pct the linear projection at
month 1 equals the compound projection at month 1, and portfolio 75000 with
pct 66 gives 124500.00 for both; for months m ≥ 2 with pct > 0 and a nonzero
portfolio the two projections differ. -/
theorem linear_compound_month1_agree (p pct : ℚ) (m : ℕ)
    (hm : 2 ≤ m) (hm12 : m ≤ 12) (hpct : 0 < pct) (hp : p ≠ 0) :
    (∀ q r : ℚ, (linear_proj q r)[0]? = (scenario_proj q r)[0]?) ∧
      (linear_proj 75000 66)[0]? = some 124500 ∧
      (scenario_proj 75000 66)[0]? = some 124500 ∧
      (linear_proj p pct)[m - 1]? ≠ (scenario_proj p pct)[m - 1]? := by
  refine ⟨?_, ?_, ?_, ?_⟩
  · intro q r
    rw [linear_proj_getElem q r 0 (by omega), scenario_proj_getElem q r 0 (by omega)]
    norm_num
    ring
  · rw [linear_proj_getElem 75000 66 0 (by omega)]
    norm_num
  · rw [scenario_proj_getElem 75000 66 0 (by omega)]
    norm_num
  · obtain ⟨k, rfl⟩ : ∃ k, m = k + 1 := ⟨m - 1, by omega⟩
    rw [Nat.add_sub_cancel, linear_proj_getElem p pct k (by omega),
      scenario_proj_getElem p pct k (by omega)]
    intro heq
    have hvals : p + p * (pct / 100) * ((k + 1 : ℕ) : ℚ) =
        p * (1 + pct / 100) ^ (k + 1) := Option.some.inj heq
    have hx : (0 : ℚ) < pct / 100 := by positivity
    have hlt := one_add_mul_lt_pow_of_pos hx (show 2 ≤ k + 1 by omega)
    have hcancel : (1 : ℚ) + ((k + 1 : ℕ) : ℚ) * (pct / 100) =
        (1 + pct / 100) ^ (k + 1) := by
      have : p * (1 + ((k + 1 : ℕ) : ℚ) * (pct / 100)) =
          p * ((1 + pct / 100) ^ (k + 1)) := by
        calc p * (1 + ((k + 1 : ℕ) : ℚ) * (pct / 100))
            = p + p * (pct / 100) * ((k + 1 : ℕ) : ℚ) := by ring
          _ = p * (1 + pct / 100) ^ (k + 1) := hvals
      exact mul_left_cancel₀ hp this
    exact absurd hcancel (ne_of_lt hlt)

/-- Witness for the amended claim C4 at portfolio 75000, pct 66, month 2. -/
theorem linear_compound_month1_agree_witness :
    (linear_proj 75000 66)[1]? ≠ (scenario_proj 75000 66)[1]? :=
  (linear_compound_month1_agree 75000 66 2 (by norm_num) (by norm_num)
    (by norm_num) (by norm_num)).2.2.2

/-- Claim C5: with entryPrice ≠ stopLoss the position size equals
|riskAmount / (entryPrice − stopLoss)| and the total position value equals
size × entryPrice; riskAmount 1500, entry 100, stop 95 give size 300 and total
value 30000; with entryPrice = stopLoss the division has no defined result
(ZeroDivisionError), and the code supplies no explicit replacement value. -/
theorem position_size_spec (risk entry stop : ℚ) (h : entry ≠ stop) :
    position_size risk entry stop = some |risk / (entry - stop)| ∧
      total_position_value risk entry stop = some (|risk / (entry - stop)| * entry) ∧
      position_size 1500 100 95 = some 300 ∧
      total_position_value 1500 100 95 = some 30000 ∧
      position_size risk entry entry = none := by
  have hne : entry - stop ≠ 0 := sub_ne_zero_of_ne h
  refine ⟨?_, ?_, ?_, ?_, ?_⟩
  · simp [position_size, hne]
  · simp [total_position_value, position_size, hne]
  · norm_num [position_size]
  · norm_num [total_position_value, position_size]
  · simp [position_size]

/-- Witness for C5 at risk 1500, entry 100, stop 95. -/
theorem position_size_spec_witness :
    position_size 1500 100 95 = some |(1500 : ℚ) / (100 - 95)| :=
  (position_size_spec 1500 100 95 (by norm_num)).1

/-- Claim C8: with nonzero risk amount, max_trades equals
portfolio / riskAmount, and the displayed value truncates that quotient to an
integer (floor on the nonnegative quotients the widgets produce, ceiling on a
negative quotient, i.e. truncation toward zero). -/
theorem max_trades_spec (p rp : ℚ) (h : risk_amount p rp ≠ 0) :
    max_trades p rp = p / risk_amount p rp ∧
      (0 ≤ max_trades p rp → max_trades_display p rp = ⌊max_trades p rp⌋) ∧
      (max_trades p rp < 0 → max_trades_display p rp = ⌈max_trades p rp⌉) := by
  refine ⟨rfl, ?_, ?_⟩ <;> intro hq
  · simp [max_trades_display, py_int, hq]
  · simp [max_trades_display, py_int, not_le.mpr hq]

/-- Witness for C8 at portfolio 75000, risk percentage 2. -/
theorem max_trades_spec_witness :
    max_trades 75000 2 = 75000 / risk_amount 75000 2 :=
  (max_trades_spec 75000 2 (by norm_num [risk_amount])).1

/-- Claim C9: with riskAmount ≠ 0, the displayed Average Trade Size,
initial_portfolio / max_trades with the unfloored max_trades, equals the risk
amount exactly. -/
theorem average_trade_size_eq_risk_amount (p rp : ℚ) (h : risk_amount p rp ≠ 0) :
    average_trade_size p rp = risk_amount p rp := by
  have hp : p ≠ 0 := by
    intro hp0
    apply h
    simp [risk_amount, hp0]
  unfold average_trade_size max_trades
  rw [div_div_eq_mul_div, mul_comm, mul_div_assoc, div_self hp, mul_one]

/-- Witness for C9 at portfolio 75000, risk percentage 2. -/
theorem average_trade_size_eq_risk_amount_witness :
    average_trade_size 75000 2 = risk_amount 75000 2 :=
  average_trade_size_eq_risk_amount 75000 2 (by norm_num [risk_amount])

/-- Claim C10: under the widget bounds (portfolio at least 1000, risk
percentage at least 0.5) the risk amount is strictly positive, and the
divisors of max_trades and of Average Trade Size are both nonzero, so neither
division divides by zero. -/
theorem risk_amount_pos_of_valid (p rp : ℚ)
    (hp : initial_portfolio_valid p) (hr : risk_percentage_valid rp) :
    0 < risk_amount p rp ∧ risk_amount p rp ≠ 0 ∧
      0 < max_trades p rp ∧ max_trades p rp ≠ 0 := by
  obtain ⟨hp1, -⟩ := hp
  obtain ⟨hr1, -⟩ := hr
  have h0p : (0 : ℚ) < p := lt_of_lt_of_le (by norm_num) hp1
  have hpos : 0 < risk_amount p rp := by
    have h0r : (0 : ℚ) < rp / 100 := by
      have : (0 : ℚ) < rp := lt_of_lt_of_le (by norm_num) hr1
      positivity
    exact mul_pos h0p h0r
  have hmt : 0 < max_trades p rp := div_pos h0p hpos
  exact ⟨hpos, ne_of_gt hpos, hmt, ne_of_gt hmt⟩

/-- Witness for C10 at portfolio 75000, risk percentage 2. -/
theorem risk_amount_pos_of_valid_witness :
    0 < risk_amount 75000 2 :=
  (risk_amount_pos_of_valid 75000 2 (by constructor <;> norm_num)
    (by constructor <;> norm_num)).1

end App
